import Mathlib

/-!
# Verification of the cuaca-fastapi weather backend (`src/main.py`)

A shallow embedding of the Python source into Lean 4, followed by theorems
settling the specification claims.  The embedding models:

* parsed JSON values (the result of `res.json()`) as an inductive `Json`
  type, with Python's `dict.get`, `d[k]`, `l[i]` access semantics including
  the exceptions they raise (`AttributeError`, `KeyError`, `TypeError`,
  `IndexError`);
* the snapshot dictionary built by `format_weather` as a structure
  `Formatted` whose fields hold `Json` values (Python `None` is `Json.null`);
* the SQLite log table as a `List LogRow` in insertion order, with
  `save_log` appending a row whose `id` is assigned the auto-increment
  successor of the current maximum id;
* the possible failure points (transport error on the outbound call,
  database-session failures inside `save_log`) as explicit parameters,
  since the Python code's behaviour is a pure function of those outcomes.

JSON numbers are modelled as rationals: the source never performs
arithmetic on them, it only copies them between dictionaries, so the
numeric representation is irrelevant to every property proved here.
-/

/-- A parsed JSON value, as returned by `res.json()` in `src/main.py`
(line 144).  Python maps JSON `null` to `None`; we keep it as a
constructor so that `None`-valued dictionary entries are distinguishable
from absent keys, exactly as in Python. -/
inductive Json where
  | null
  | bool (b : Bool)
  | num (q : ℚ)
  | str (s : String)
  | arr (xs : List Json)
  | obj (fields : List (String × Json))

/-- The Python exceptions that the analysed code paths can raise. -/
inductive PyErr where
  | keyError
  | typeError
  | attributeError
  | indexError
  | unboundLocalError
  deriving DecidableEq, Repr

/-- Python truthiness (`if data:`): `None`, `False`, `0`, `""`, `[]` and
`{}` are falsy, everything else is truthy. -/
def truthy : Json → Bool
  | .null => false
  | .bool b => b
  | .num q => q ≠ 0
  | .str s => s ≠ ""
  | .arr xs => !xs.isEmpty
  | .obj fs => !fs.isEmpty

/-- First-match lookup in a JSON object's field list (Python dict keys are
unique, so first-match agrees with dict lookup). -/
def olookup (fields : List (String × Json)) (k : String) : Option Json :=
  (fields.find? (fun p => p.1 = k)).map Prod.snd

/-- Python `data.get(k)` / `data.get(k, default)` core: returns the value
when the key is present, `none` when absent; raises `AttributeError` when
the receiver is not a dict (e.g. a JSON array has no `.get`). -/
def pyGet (data : Json) (k : String) : Except PyErr (Option Json) :=
  match data with
  | .obj fs => .ok (olookup fs k)
  | _ => .error .attributeError

/-- Python subscription `data[k]` with a string key: `KeyError` when the
key is absent from a dict, `TypeError` when the receiver is not a dict. -/
def pyItem (data : Json) (k : String) : Except PyErr Json :=
  match data with
  | .obj fs =>
      match olookup fs k with
      | some v => .ok v
      | none => .error .keyError
  | _ => .error .typeError

/-- Python subscription `data[i]` with an integer index: `IndexError` when
out of range on a list, `TypeError` when the receiver is not a list. -/
def pyIndex (data : Json) (i : Nat) : Except PyErr Json :=
  match data with
  | .arr xs =>
      match xs[i]? with
      | some v => .ok v
      | none => .error .indexError
  | _ => .error .typeError

/-- Python's `str()` as used inside the f-string on line 154
(`f"Gagal ambil data: {msg}"`).  The cases that matter to the analysed
behaviour are strings (rendered verbatim) and `None`; container rendering
is abbreviated since no analysed code path depends on it. -/
def pyStr : Json → String
  | .null => "None"
  | .bool true => "True"
  | .bool false => "False"
  | .num q => toString q
  | .str s => s
  | .arr _ => "<list>"
  | .obj _ => "<dict>"

/-- The dictionary shape returned by `format_weather` and by the two
failure branches of `_call_openweather` (keys `city`, `temp`,
`feels_like`, `description`, `humidity`, `updated_at`).  Fields hold
`Json` values; Python `None` is `Json.null`.  `updated_at` is always the
freshly formatted timestamp string, so it is kept as a `String`. -/
structure Formatted where
  city : Json
  temp : Json
  feels_like : Json
  description : Json
  humidity : Json
  updated_at : String

/-- The `try:` block of `format_weather` (src/main.py lines 84-92): builds
the success dictionary; any missing key / wrong shape raises, in the
evaluation order of the dict literal. -/
def fwBody (data : Json) (now : String) : Except PyErr Formatted := do
  let city ← pyGet data "name"
  let main ← pyItem data "main"
  let temp ← pyItem main "temp"
  let fl ← pyItem main "feels_like"
  let weather ← pyItem data "weather"
  let w0 ← pyIndex weather 0
  let desc ← pyItem w0 "description"
  let hum ← pyItem main "humidity"
  return { city := city.getD .null
           temp := temp
           feels_like := fl
           description := desc
           humidity := hum
           updated_at := now }

/-- `format_weather` (src/main.py lines 82-102).  The `except Exception`
handler returns the fallback dictionary — but its own `city` expression
`data.get("name") if data else "Lokasi tidak diketahui"` calls `.get` on
a truthy non-dict value, raising an `AttributeError` that escapes
`format_weather` (it is re-raised from inside the handler). -/
def format_weather (data : Json) (now : String) : Except PyErr Formatted :=
  match fwBody data now with
  | .ok f => .ok f
  | .error _ =>
      if truthy data then
        match pyGet data "name" with
        | .ok nameOpt =>
            .ok { city := nameOpt.getD .null
                  temp := .null
                  feels_like := .null
                  description := .str "Tidak bisa ambil data"
                  humidity := .null
                  updated_at := now }
        | .error e => .error e
      else
        .ok { city := .str "Lokasi tidak diketahui"
              temp := .null
              feels_like := .null
              description := .str "Tidak bisa ambil data"
              humidity := .null
              updated_at := now }

/-- One row of the `weather_logs` SQLite table (class `WeatherLog`,
src/main.py lines 33-46).  `id` is the auto-increment integer primary
key; `api_called_at` is kept as the formatted WIB timestamp string;
the nullable columns hold the `Json` values `save_log` copies out of the
formatted dictionary (`Json.null` models SQL `NULL`). -/
structure LogRow where
  id : Nat
  api_called_at : String
  mode : String
  city : Json
  lat : Option ℚ
  lon : Option ℚ
  temp : Json
  feels_like : Json
  humidity : Json
  description : Json
  raw_json : Json

/-- SQLite's auto-increment id for the next inserted row: one more than
the largest id currently in the table. -/
def nextId (db : List LogRow) : Nat :=
  db.foldr (fun r m => max r.id m) 0 + 1

/-- Outcome of the database session inside one `save_log` call:
the session opens and the commit succeeds, or `SessionLocal()` itself
raises, or a later statement (`add`/`commit`) raises. -/
inductive DbOutcome where
  | ok
  | sessionOpenRaises
  | commitRaises
  deriving DecidableEq

/-- `save_log` (src/main.py lines 105-126).  The body is
`try: db = SessionLocal(); ...; db.add(log); db.commit()
 except Exception as e: print(...)
 finally: db.close()`.
Consequences, traced from Python semantics:
* `DbOutcome.ok`: the row is inserted — the table grows by exactly one
  row, with the auto-increment id.  No row is ever deleted: the function
  contains no `delete` and no capacity check.
* `DbOutcome.commitRaises`: the exception is caught by the
  `except Exception` handler (only printed); `finally` closes the bound
  session; `save_log` returns normally with the table unchanged.
* `DbOutcome.sessionOpenRaises`: `SessionLocal()` raises before `db` is
  bound; the handler catches that exception, but the `finally` block then
  evaluates `db.close()` with `db` unbound, raising an
  `UnboundLocalError` that propagates out of `save_log` to its caller. -/
def save_log (dbo : DbOutcome) (db : List LogRow) (mode : String) (api_data : Json)
    (formatted : Formatted) (lat lon : Option ℚ) (now : String) :
    Except PyErr (List LogRow) :=
  match dbo with
  | .sessionOpenRaises => .error .unboundLocalError
  | .commitRaises => .ok db
  | .ok =>
      .ok (db ++ [{ id := nextId db
                    api_called_at := now
                    mode := mode
                    city := formatted.city
                    lat := lat
                    lon := lon
                    temp := formatted.temp
                    feels_like := formatted.feels_like
                    humidity := formatted.humidity
                    description := formatted.description
                    raw_json := api_data }])

/-- Outcome of the one outbound HTTP call in `_call_openweather`
(src/main.py lines 143-144): either `requests.get` / `res.json()` raises a
`requests.RequestException` (timeout, connection error, undecodable body),
or a reply with a status code and a parsed JSON body is obtained. -/
inductive FetchOutcome where
  | transportError (emsg : String)
  | reply (status : Nat) (data : Json)

/-- `_call_openweather` (src/main.py lines 129-176), as a function of the
HTTP outcome and the database outcome.  Branches, traced from the source:
* transport error: caught by `except requests.RequestException`; a fixed
  failure dictionary is built (city is always the sentinel
  `"Lokasi tidak diketahui"`, numerics `None`), logged with
  `api_data = {"error": str(e)}`, and returned;
* non-200 reply: `msg = data.get("message", default)` and
  `data.get("name") or sentinel` (both raise `AttributeError` for a
  non-dict body, which the `except requests.RequestException` clause does
  not catch); the failure dictionary embeds the provider message in
  `description`; the reply body is logged;
* 200 reply: `format_weather(data)` (whose possible `AttributeError`
  likewise escapes), then `save_log`.
In every branch an exception raised by `save_log` propagates to the
caller, since `UnboundLocalError` is not a `requests.RequestException`. -/
def call_openweather (outcome : FetchOutcome) (dbo : DbOutcome) (mode : String)
    (lat lon : Option ℚ) (db : List LogRow) (now : String) :
    Except PyErr (Formatted × List LogRow) :=
  match outcome with
  | .transportError emsg =>
      let formatted : Formatted :=
        { city := .str "Lokasi tidak diketahui"
          temp := .null
          feels_like := .null
          description := .str "Tidak bisa terhubung ke server cuaca"
          humidity := .null
          updated_at := now }
      (save_log dbo db mode (.obj [("error", .str emsg)]) formatted lat lon now).map
        (fun db2 => (formatted, db2))
  | .reply status data =>
      if status ≠ 200 then do
        let msgOpt ← pyGet data "message"
        let msg := msgOpt.getD (.str "Gagal ambil data dari API cuaca")
        let nameOpt ← pyGet data "name"
        let namev := nameOpt.getD .null
        let cityv := if truthy namev then namev else .str "Lokasi tidak diketahui"
        let formatted : Formatted :=
          { city := cityv
            temp := .null
            feels_like := .null
            description := .str ("Gagal ambil data: " ++ pyStr msg)
            humidity := .null
            updated_at := now }
        let db2 ← save_log dbo db mode data formatted lat lon now
        return (formatted, db2)
      else do
        let formatted ← format_weather data now
        let db2 ← save_log dbo db mode data formatted lat lon now
        return (formatted, db2)

/-- The hard-coded fallback API key (src/main.py line 63). -/
def FALLBACK_API_KEY : String := "ca21257afebb7702df3c0497ccffa219"

/-- Resolution of the credential (src/main.py line 64):
`os.getenv("WEATHER_API_KEY") or FALLBACK_API_KEY` — Python's `or`
falls back when the environment variable is unset (`None`) or empty
(falsy). -/
def WEATHER_API_KEY (env : Option String) : String :=
  match env with
  | none => FALLBACK_API_KEY
  | some s => if s = "" then FALLBACK_API_KEY else s

/-- The query parameters sent with the outbound call (src/main.py lines
135-140): `{"appid": key, "units": "metric", "lang": "id", **params}`,
modelled as an association list in insertion order (the caller-supplied
keys `q` / `lat` / `lon` never collide with the three fixed keys). -/
def final_params (key : String) (params : List (String × Json)) : List (String × Json) :=
  [("appid", .str key), ("units", .str "metric"), ("lang", .str "id")] ++ params

/-- Default city for automatic mode (src/main.py lines 66-67, default
values of the environment lookups). -/
def CITY : String := "Pontianak"

/-- Default country code (src/main.py line 67). -/
def COUNTRY_CODE : String := "ID"

/-- `get_weather_default` (src/main.py lines 179-184): automatic mode,
no coordinates recorded. -/
def get_weather_default (outcome : FetchOutcome) (dbo : DbOutcome)
    (db : List LogRow) (now : String) : Except PyErr (Formatted × List LogRow) :=
  call_openweather outcome dbo "otomatis" none none db now

/-- `get_weather_by_coords` (src/main.py lines 187-194): manual mode, the
coordinates are passed through to `save_log`. -/
def get_weather_by_coords (lat lon : ℚ) (outcome : FetchOutcome) (dbo : DbOutcome)
    (db : List LogRow) (now : String) : Except PyErr (Formatted × List LogRow) :=
  call_openweather outcome dbo "manual" (some lat) (some lon) db now

/-- The ordering used by the `/logs` query: `ORDER BY id DESC`. -/
def byIdDesc (a b : LogRow) : Prop := b.id ≤ a.id

instance : DecidableRel byIdDesc := fun a b => Nat.decLe b.id a.id

instance : IsTotal LogRow byIdDesc := ⟨fun a b => Nat.le_total b.id a.id⟩

instance : IsTrans LogRow byIdDesc := ⟨fun _ _ _ h1 h2 => Nat.le_trans h2 h1⟩

/-- The query of the `/logs` endpoint (`get_logs`, src/main.py lines
244-249): `db.query(WeatherLog).order_by(WeatherLog.id.desc()).limit(limit)`
— the table sorted by descending id, truncated to `limit` rows (the
endpoint then serialises each row without `raw_json`). -/
def get_logs (db : List LogRow) (limit : Nat) : List LogRow :=
  (List.insertionSort byIdDesc db).take limit

/-- An accepted websocket connection, identified opaquely. -/
structure Conn where
  id : Nat
  deriving DecidableEq

/-- One iteration of the per-connection loop of the `/ws` handler
(src/main.py lines 210-221) after `get_weather_default()` produced
`snap`: `await websocket.send_json(weather)` either delivers `snap` and
the loop continues (connection stays open), or raises, in which case the
`except`/`finally` clauses of this handler close this one connection.
The handlers of distinct connections are separate tasks sharing no state,
so one connection's outcome is a function of its own push result only. -/
def wsIter (snap : Formatted) (pushOk : Bool) : Option Formatted × Bool :=
  if pushOk then (some snap, true) else (none, false)

/-- The connections that receive `snap` in one round of pushes across all
live `/ws` handlers, paired with what each receives. -/
def wsRoundDelivered (live : List Conn) (fails : Conn → Bool) (snap : Formatted) :
    List (Conn × Formatted) :=
  live.filterMap (fun c => ((wsIter snap (!(fails c))).1).map (fun s => (c, s)))

/-- The connections whose handler loop is still running after one round
of pushes — the code's implicit connection registry. -/
def wsRoundLive (live : List Conn) (fails : Conn → Bool) (snap : Formatted) : List Conn :=
  live.filter (fun c => (wsIter snap (!(fails c))).2)

/-- The failure dictionary built by the `except requests.RequestException`
branch of `_call_openweather` (src/main.py lines 167-174), named so that
theorems can refer to the transport-failure snapshot. -/
def transportSnapshot (now : String) : Formatted :=
  { city := .str "Lokasi tidak diketahui"
    temp := .null
    feels_like := .null
    description := .str "Tidak bisa terhubung ke server cuaca"
    humidity := .null
    updated_at := now }

/-- The arguments of one `save_log` call, bundled so that a sequence of
append calls can be described as a list. -/
structure SaveCall where
  mode : String
  api_data : Json
  formatted : Formatted
  lat : Option ℚ
  lon : Option ℚ
  now : String

/-- A sequence of `save_log` calls against a healthy database, each
starting from the table state the previous one left behind — the
"N append calls" of the capacity claim. -/
def save_log_run (db : List LogRow) (calls : List SaveCall) : List LogRow :=
  match calls with
  | [] => db
  | c :: rest =>
      match save_log .ok db c.mode c.api_data c.formatted c.lat c.lon c.now with
      | .ok db2 => save_log_run db2 rest
      | .error _ => save_log_run db rest

/-- A minimal formatted dictionary, used to build concrete `save_log`
calls in counterexamples. -/
def plainFormatted : Formatted :=
  { city := .null
    temp := .null
    feels_like := .null
    description := .str "x"
    humidity := .null
    updated_at := "t" }

/-- A concrete `save_log` call used in counterexamples. -/
def plainCall : SaveCall :=
  { mode := "manual", api_data := .null, formatted := plainFormatted
    lat := none, lon := none, now := "t" }

/-- A log row with a given id and fixed contents, for concrete tables. -/
def mkRow (i : Nat) : LogRow :=
  { id := i, api_called_at := "t", mode := "manual", city := .null
    lat := none, lon := none, temp := .null, feels_like := .null
    humidity := .null, description := .null, raw_json := .null }

/-- A concrete five-row table with ids 1..5 in insertion order. -/
def db5 : List LogRow := [1, 2, 3, 4, 5].map mkRow

/-! ## Theorems -/

/-- Claim C1 (amended):  `save_log` never deletes a row: the source contains no
capacity check and no delete; every append against a healthy database
grows the table by exactly one row, so after N appends `count()` is the
initial count plus N, and every previously stored row survives in place
(the original table is a prefix of the result). -/
theorem c1_append_never_evicts (calls : List SaveCall) (db : List LogRow) :
    (save_log_run db calls).length = db.length + calls.length ∧
    db <+: save_log_run db calls := by
  induction calls generalizing db with
  | nil => exact ⟨rfl, ⟨[], List.append_nil _⟩⟩
  | cons c rest ih =>
      have hstep : save_log_run db (c :: rest) = save_log_run (db ++
          [{ id := nextId db, api_called_at := c.now, mode := c.mode
             city := c.formatted.city, lat := c.lat, lon := c.lon
             temp := c.formatted.temp, feels_like := c.formatted.feels_like
             humidity := c.formatted.humidity, description := c.formatted.description
             raw_json := c.api_data }]) rest := rfl
      rw [hstep]
      obtain ⟨h1, h2⟩ := ih _
      constructor
      · rw [h1]; simp; omega
      · exact List.IsPrefix.trans ⟨_, rfl⟩ h2

/-- Claim C1 (counterexample):  With capacity `max = 1` and `N = 2 > max`
appends into an empty store, the claim demands `count() = 1`; the code
leaves both rows in the table (`count() = 2`, ids 1 and 2 both
surviving), because `save_log` has no eviction at all. -/
theorem c1_counterexample :
    (save_log_run [] [plainCall, plainCall]).length = 2 ∧
    (save_log_run [] [plainCall, plainCall]).map (fun r => r.id) = [1, 2] ∧
    (2 : Nat) ≠ 1 :=
  ⟨rfl, rfl, by decide⟩

/-- Claim C3 (confirmed):  A transport-level failure (`requests.RequestException`)
always yields the fixed failure snapshot — non-empty description
`"Tidak bisa terhubung ke server cuaca"`, all three numeric fields absent
— and appends exactly one row to the log, whatever the mode, coordinates
and prior table contents. -/
theorem c3_transport_failure_logged (emsg mode now : String) (lat lon : Option ℚ)
    (db : List LogRow) :
    call_openweather (.transportError emsg) .ok mode lat lon db now =
      .ok (transportSnapshot now,
        db ++ [{ id := nextId db, api_called_at := now, mode := mode
                 city := .str "Lokasi tidak diketahui", lat := lat, lon := lon
                 temp := .null, feels_like := .null, humidity := .null
                 description := .str "Tidak bisa terhubung ke server cuaca"
                 raw_json := .obj [("error", .str emsg)] }]) ∧
    (transportSnapshot now).description = .str "Tidak bisa terhubung ke server cuaca" ∧
    "Tidak bisa terhubung ke server cuaca" ≠ "" ∧
    (transportSnapshot now).temp = .null ∧
    (transportSnapshot now).feels_like = .null ∧
    (transportSnapshot now).humidity = .null :=
  ⟨rfl, rfl, by decide, rfl, rfl, rfl⟩

/-- Claim C4 (counterexample):  A coordinate fetch (`get_weather_by_coords`, so
coordinates were given) that fails at the transport level returns the
generic sentinel `"Lokasi tidak diketahui"` as its location label, not
the coordinate text: the claim's "coordinate text when the call was made
with coordinates" is false. -/
theorem c4_counterexample :
    ((get_weather_by_coords 1 2 (.transportError "boom") .ok [] "t").toOption.map
      (fun p => p.1.city)) = some (.str "Lokasi tidak diketahui") ∧
    Json.str "Lokasi tidak diketahui" ≠ Json.str "1, 2" :=
  ⟨rfl, by simp⟩

/-- Claim C4 (amended):  On a transport-level failure the snapshot's location
label is always the generic sentinel `"Lokasi tidak diketahui"`, whether
or not coordinates were given; the coordinates are recorded only in the
appended log row's `lat`/`lon` columns. -/
theorem c4_transport_label_always_sentinel (lat lon : ℚ) (emsg now : String)
    (db : List LogRow) :
    ∃ row : LogRow,
      get_weather_by_coords lat lon (.transportError emsg) .ok db now =
        .ok (transportSnapshot now, db ++ [row]) ∧
      (transportSnapshot now).city = .str "Lokasi tidak diketahui" ∧
      row.lat = some lat ∧ row.lon = some lon :=
  ⟨_, rfl, rfl, rfl, rfl⟩

/-- Claim C9 (code bug):  The claim says every failure inside the append path —
including a failure to open the database session — is swallowed.  The
`except Exception` clause of `save_log` shows that is the intent, and
failures after the session is bound (e.g. at `commit`) are indeed
swallowed with the caller's snapshot untouched; but when `SessionLocal()`
itself raises, the `finally: db.close()` clause evaluates the unbound
local `db` and the resulting `UnboundLocalError` propagates out of
`save_log` and out of `_call_openweather`, so the caller gets an
exception instead of its already-computed snapshot. -/
theorem c9_session_open_failure_crashes_caller :
    save_log .sessionOpenRaises [] "manual" .null plainFormatted none none "t" =
      .error .unboundLocalError ∧
    call_openweather (.transportError "timed out") .sessionOpenRaises "manual"
      (some 1) (some 2) [] "t" = .error .unboundLocalError ∧
    (∀ (db : List LogRow) (mode : String) (api : Json) (f : Formatted)
        (lat lon : Option ℚ) (now : String),
      save_log .commitRaises db mode api f lat lon now = .ok db) :=
  ⟨rfl, rfl, fun _ _ _ _ _ _ _ => rfl⟩

/-- Inserting a row whose id is strictly below every id in `l` at the
`byIdDesc` position appends it at the end. -/
theorem orderedInsert_byIdDesc_of_lt (x : LogRow) (l : List LogRow)
    (h : ∀ y ∈ l, x.id < y.id) :
    List.orderedInsert byIdDesc x l = l ++ [x] := by
  induction l with
  | nil => rfl
  | cons y l ih =>
      have hxy : ¬ byIdDesc x y := by
        have h1 := h y (List.mem_cons_self y l)
        intro hc
        unfold byIdDesc at hc
        omega
      rw [List.orderedInsert, if_neg hxy, ih (fun z hz => h z (List.mem_cons_of_mem _ hz))]
      rfl

/-- Sorting a table whose ids are in strictly ascending insertion order
by descending id reverses it. -/
theorem insertionSort_byIdDesc_ascending (l : List LogRow)
    (h : l.Pairwise (fun a b => a.id < b.id)) :
    List.insertionSort byIdDesc l = l.reverse := by
  induction l with
  | nil => rfl
  | cons x l ih =>
      rw [List.insertionSort, ih (List.Pairwise.of_cons h),
        orderedInsert_byIdDesc_of_lt x l.reverse
          (fun y hy => (List.pairwise_cons.mp h).1 y (List.mem_reverse.mp hy))]
      simp

/-- Claim C7 (confirmed):  On a table whose ids are strictly ascending in
insertion order (the auto-increment invariant), the `/logs` query returns
the most recent rows: the reverse of the table truncated to `limit`, in
strictly descending id order, with `min limit count` rows.  In
particular, after inserting ids 1..5, `limit = 2` returns ids [5, 4]
(see the witness). -/
theorem c7_get_logs_descending (db : List LogRow) (limit : Nat)
    (h : db.Pairwise (fun a b => a.id < b.id)) :
    get_logs db limit = db.reverse.take limit ∧
    (get_logs db limit).Pairwise (fun a b => b.id < a.id) ∧
    (get_logs db limit).length = min limit db.length := by
  have hs : get_logs db limit = db.reverse.take limit := by
    unfold get_logs
    rw [insertionSort_byIdDesc_ascending db h]
  refine ⟨hs, ?_, ?_⟩
  · rw [hs]
    have hrev : db.reverse.Pairwise (fun a b => b.id < a.id) := by
      rw [List.pairwise_reverse]
      exact h
    exact hrev.sublist (List.take_sublist _ _)
  · rw [hs, List.length_take, List.length_reverse]

/-- Claim C7 (witness):  The concrete instance of the claim: ids 1..5 inserted
in order, `limit = 2`, result ids `[5, 4]` in that order. -/
theorem c7_get_logs_descending_witness :
    db5.Pairwise (fun a b => a.id < b.id) ∧
    get_logs db5 2 = db5.reverse.take 2 ∧
    (get_logs db5 2).map (fun r => r.id) = [5, 4] :=
  ⟨by decide, (c7_get_logs_descending db5 2 (by decide)).1, rfl⟩

/-- Claim C2 (confirmed):  One round of pushes of the fetched snapshot across K
registered (live, pairwise-distinct) `/ws` connections, of which exactly
one fails: every other connection receives the snapshot produced by
`get_weather_default`, and the set of still-live connections — the code's
implicit registry — is exactly the original K connections minus the
failing one, so it has K−1 members.  (The handlers are independent tasks:
each connection's fate is a function of its own push result only, which
is what makes one failure unable to abort the others.) -/
theorem c2_fanout_isolation (live : List Conn) (c0 : Conn) (snap : Formatted)
    (outcome : FetchOutcome) (db db2 : List LogRow) (now : String)
    (hnd : live.Nodup) (hmem : c0 ∈ live)
    (hfetch : get_weather_default outcome .ok db now = .ok (snap, db2)) :
    wsRoundDelivered live (fun c => decide (c = c0)) snap =
      (live.erase c0).map (fun c => (c, snap)) ∧
    wsRoundLive live (fun c => decide (c = c0)) snap = live.erase c0 ∧
    (wsRoundLive live (fun c => decide (c = c0)) snap).length + 1 = live.length := by
  have key : ∀ (p : Conn → Bool) (l : List Conn),
      wsRoundDelivered l p snap = (l.filter (fun c => !(p c))).map (fun c => (c, snap)) ∧
      wsRoundLive l p snap = l.filter (fun c => !(p c)) := by
    intro p l
    induction l with
    | nil => exact ⟨rfl, rfl⟩
    | cons x l ih =>
        obtain ⟨ih1, ih2⟩ := ih
        simp only [wsRoundDelivered, wsRoundLive, wsIter, Bool.not_eq_true'] at ih1 ih2 ⊢
        rw [List.filterMap_cons, List.filter_cons]
        cases hp : p x
        · simp [hp, ih1, ih2]
        · simp [hp, ih1, ih2]
  obtain ⟨h2, h1⟩ := key (fun c => decide (c = c0)) live
  have hfe : live.filter (fun c => !(decide (c = c0))) = live.filter (fun c => c != c0) :=
    List.filter_congr (fun x _ => rfl)
  have herase : live.erase c0 = live.filter (fun c => c != c0) :=
    hnd.erase_eq_filter c0
  refine ⟨by rw [h2, hfe, herase], by rw [h1, hfe, herase], ?_⟩
  rw [h1, hfe, ← herase, List.length_erase_of_mem hmem]
  have hpos : 0 < live.length := List.length_pos.mpr (List.ne_nil_of_mem hmem)
  omega

/-- Claim C2 (witness):  Three live connections, the second one's push fails:
the first and third receive the fetched snapshot and the implicit
registry afterwards is exactly those two. -/
theorem c2_fanout_isolation_witness :
    ([⟨1⟩, ⟨2⟩, ⟨3⟩] : List Conn).Nodup ∧
    (⟨2⟩ : Conn) ∈ ([⟨1⟩, ⟨2⟩, ⟨3⟩] : List Conn) ∧
    get_weather_default (.transportError "down") .ok [] "t" =
      .ok (transportSnapshot "t",
        [{ id := 1, api_called_at := "t", mode := "otomatis"
           city := .str "Lokasi tidak diketahui", lat := none, lon := none
           temp := .null, feels_like := .null, humidity := .null
           description := .str "Tidak bisa terhubung ke server cuaca"
           raw_json := .obj [("error", .str "down")] }]) ∧
    wsRoundDelivered [⟨1⟩, ⟨2⟩, ⟨3⟩] (fun c => decide (c = ⟨2⟩)) (transportSnapshot "t") =
      [(⟨1⟩, transportSnapshot "t"), (⟨3⟩, transportSnapshot "t")] ∧
    wsRoundLive [⟨1⟩, ⟨2⟩, ⟨3⟩] (fun c => decide (c = ⟨2⟩)) (transportSnapshot "t") =
      [⟨1⟩, ⟨3⟩] := by
  refine ⟨by decide, by decide, rfl, ?_, ?_⟩
  · have h := (c2_fanout_isolation [⟨1⟩, ⟨2⟩, ⟨3⟩] ⟨2⟩ (transportSnapshot "t")
      (.transportError "down") [] _ "t" (by decide) (by decide) rfl).1
    simpa using h
  · have h := (c2_fanout_isolation [⟨1⟩, ⟨2⟩, ⟨3⟩] ⟨2⟩ (transportSnapshot "t")
      (.transportError "down") [] _ "t" (by decide) (by decide) rfl).2.1
    simpa using h

/-- Claim C5 (counterexample):  A 200 reply whose body is `{"name": "Pontianak"}`
(missing every expected field) yields city `"Pontianak"` and description
`"Tidak bisa ambil data"`, while a transport failure yields city
`"Lokasi tidak diketahui"` and description
`"Tidak bisa terhubung ke server cuaca"` — the two snapshots are not
identical, in description and in location fallback.  Moreover a 200 reply
whose body is the truthy non-dict `[1]` makes the `except` handler of
`format_weather` re-raise an `AttributeError` that propagates to the
caller, so raw parsing faults are not always contained. -/
theorem c5_counterexample :
    ((call_openweather (.reply 200 (.obj [("name", .str "Pontianak")])) .ok "manual"
        none none [] "t").toOption.map (fun p => (p.1.city, p.1.description))) =
      some (.str "Pontianak", .str "Tidak bisa ambil data") ∧
    ((call_openweather (.transportError "x") .ok "manual" none none [] "t").toOption.map
        (fun p => (p.1.city, p.1.description))) =
      some (.str "Lokasi tidak diketahui", .str "Tidak bisa terhubung ke server cuaca") ∧
    Json.str "Tidak bisa ambil data" ≠ Json.str "Tidak bisa terhubung ke server cuaca" ∧
    call_openweather (.reply 200 (.arr [.num 1])) .ok "manual" none none [] "t" =
      .error .attributeError :=
  ⟨rfl, rfl, by simp, rfl⟩

/-- Claim C5 (amended):  A 200 reply whose dict body fails parsing is
normalized defensively, but not into the transport-failure snapshot: the
numeric fields are absent and the description is the distinct fixed
string `"Tidak bisa ambil data"`, with the location label falling back to
the body's `name` value (possibly `None`) when the body is truthy and to
the `"Lokasi tidak diketahui"` sentinel otherwise; exactly one log row is
still appended.  (For truthy non-dict bodies the parsing fault escapes —
see the counterexample.) -/
theorem c5_malformed_success_normalized (fs : List (String × Json)) (mode now : String)
    (lat lon : Option ℚ) (db : List LogRow) (e : PyErr)
    (hmal : fwBody (.obj fs) now = .error e) :
    ∃ f row,
      call_openweather (.reply 200 (.obj fs)) .ok mode lat lon db now =
        .ok (f, db ++ [row]) ∧
      f.temp = .null ∧ f.feels_like = .null ∧ f.humidity = .null ∧
      f.description = .str "Tidak bisa ambil data" ∧
      f.city = (if truthy (.obj fs) then (olookup fs "name").getD .null
                else .str "Lokasi tidak diketahui") ∧
      f.description ≠ (transportSnapshot now).description := by
  have hfw : format_weather (.obj fs) now =
      .ok { city := if truthy (.obj fs) then (olookup fs "name").getD .null
                    else .str "Lokasi tidak diketahui"
            temp := .null
            feels_like := .null
            description := .str "Tidak bisa ambil data"
            humidity := .null
            updated_at := now } := by
    unfold format_weather
    rw [hmal]
    by_cases ht : truthy (.obj fs) <;> simp [ht, pyGet]
  refine ⟨{ city := if truthy (.obj fs) then (olookup fs "name").getD .null
                    else .str "Lokasi tidak diketahui"
            temp := .null
            feels_like := .null
            description := .str "Tidak bisa ambil data"
            humidity := .null
            updated_at := now },
          { id := nextId db
            api_called_at := now
            mode := mode
            city := if truthy (.obj fs) then (olookup fs "name").getD .null
                    else .str "Lokasi tidak diketahui"
            lat := lat
            lon := lon
            temp := .null
            feels_like := .null
            humidity := .null
            description := .str "Tidak bisa ambil data"
            raw_json := .obj fs },
          ?_, rfl, rfl, rfl, rfl, rfl, by simp [transportSnapshot]⟩
  calc call_openweather (.reply 200 (.obj fs)) .ok mode lat lon db now
      = (format_weather (.obj fs) now).bind (fun f =>
          (save_log .ok db mode (.obj fs) f lat lon now).bind
            (fun db2 => .ok (f, db2))) := rfl
    _ = _ := by rw [hfw]; rfl

/-- Claim C5 (witness):  The amended statement instantiated at the body
`{"name": "X"}`, whose parsing fails with a `KeyError` on `data["main"]`. -/
theorem c5_malformed_success_normalized_witness :
    fwBody (.obj [("name", .str "X")]) "t" = .error .keyError ∧
    (∃ f row, call_openweather (.reply 200 (.obj [("name", .str "X")])) .ok "manual"
        none none [] "t" = .ok (f, [] ++ [row]) ∧
      f.temp = .null ∧ f.feels_like = .null ∧ f.humidity = .null ∧
      f.description = .str "Tidak bisa ambil data" ∧
      f.city = (if truthy (.obj [("name", .str "X")])
                then (olookup [("name", .str "X")] "name").getD .null
                else .str "Lokasi tidak diketahui") ∧
      f.description ≠ (transportSnapshot "t").description) :=
  ⟨rfl, c5_malformed_success_normalized [("name", .str "X")] "manual" "t"
    none none [] .keyError rfl⟩

/-- Claim C6 (counterexample):  A 404 reply with the provider's
"location not found"-style body `{"cod": "404", "message": "city not found"}`
yields the description `"Gagal ambil data: city not found"` — the
provider's raw message embedded in the generic failure prefix — and not
any friendlier special-cased phrase: no such special case exists in the
code. -/
theorem c6_counterexample :
    ((call_openweather (.reply 404 (.obj [("cod", .str "404"),
        ("message", .str "city not found")])) .ok "manual" none none [] "t").toOption.map
      (fun p => p.1.description)) = some (.str "Gagal ambil data: city not found") ∧
    Json.str "Gagal ambil data: city not found" ≠
      Json.str "no weather data at this point — likely ocean or out of coverage" :=
  ⟨rfl, by simp⟩

/-- Inversion of a successful `Except` bind: the first step succeeded and
the continuation succeeded on its result. -/
theorem except_bind_ok_ex {α β : Type} {m : Except PyErr α} {k : α → Except PyErr β} {b : β}
    (h : m.bind k = .ok b) : ∃ a, m = .ok a ∧ k a = .ok b := by
  cases m with
  | error e => exact absurd h (by simp [Except.bind])
  | ok a => exact ⟨a, rfl, h⟩

/-- Claim C6 (amended):  Every non-success reply with a dict body yields a
snapshot whose description is `"Gagal ambil data: "` followed by the
provider's `message` value (or the default `"Gagal ambil data dari API
cuaca"` when absent), with all numeric fields absent and the city falling
back to the body's truthy `name` or the sentinel; there is no
special-casing of "location not found" messages, and exactly one log row
is appended. -/
theorem c6_nonsuccess_description (status : Nat) (fs : List (String × Json))
    (mode now : String) (lat lon : Option ℚ) (db : List LogRow)
    (hstat : status ≠ 200) :
    ∃ f row,
      call_openweather (.reply status (.obj fs)) .ok mode lat lon db now =
        .ok (f, db ++ [row]) ∧
      f.description = .str ("Gagal ambil data: " ++
        pyStr ((olookup fs "message").getD (.str "Gagal ambil data dari API cuaca"))) ∧
      f.temp = .null ∧ f.feels_like = .null ∧ f.humidity = .null ∧
      f.city = (if truthy ((olookup fs "name").getD .null)
                then (olookup fs "name").getD .null
                else .str "Lokasi tidak diketahui") := by
  refine ⟨{ city := if truthy ((olookup fs "name").getD .null)
                    then (olookup fs "name").getD .null
                    else .str "Lokasi tidak diketahui"
            temp := .null
            feels_like := .null
            description := .str ("Gagal ambil data: " ++
              pyStr ((olookup fs "message").getD (.str "Gagal ambil data dari API cuaca")))
            humidity := .null
            updated_at := now },
          { id := nextId db
            api_called_at := now
            mode := mode
            city := if truthy ((olookup fs "name").getD .null)
                    then (olookup fs "name").getD .null
                    else .str "Lokasi tidak diketahui"
            lat := lat
            lon := lon
            temp := .null
            feels_like := .null
            humidity := .null
            description := .str ("Gagal ambil data: " ++
              pyStr ((olookup fs "message").getD (.str "Gagal ambil data dari API cuaca")))
            raw_json := .obj fs },
          ?_, rfl, rfl, rfl, rfl, rfl⟩
  rw [show call_openweather (.reply status (.obj fs)) .ok mode lat lon db now =
      (if status ≠ 200 then
        (pyGet (.obj fs) "message").bind (fun msgOpt =>
          (pyGet (.obj fs) "name").bind (fun nameOpt =>
            (save_log .ok db mode (.obj fs)
              { city := if truthy (nameOpt.getD .null) then nameOpt.getD .null
                        else .str "Lokasi tidak diketahui"
                temp := .null
                feels_like := .null
                description := .str ("Gagal ambil data: " ++
                  pyStr (msgOpt.getD (.str "Gagal ambil data dari API cuaca")))
                humidity := .null
                updated_at := now }
              lat lon now).bind (fun d =>
                (.ok ({ city := if truthy (nameOpt.getD .null) then nameOpt.getD .null
                                else .str "Lokasi tidak diketahui"
                        temp := .null
                        feels_like := .null
                        description := .str ("Gagal ambil data: " ++
                          pyStr (msgOpt.getD (.str "Gagal ambil data dari API cuaca")))
                        humidity := .null
                        updated_at := now }, d) : Except PyErr _))))
      else (format_weather (.obj fs) now).bind (fun fw =>
        (save_log .ok db mode (.obj fs) fw lat lon now).bind
          (fun d => (.ok (fw, d) : Except PyErr _)))) from rfl, if_pos hstat]
  rfl

/-- Claim C6 (witness):  The amended statement instantiated at the 404
"city not found" reply. -/
theorem c6_nonsuccess_description_witness :
    (404 : Nat) ≠ 200 ∧
    (∃ f row,
      call_openweather (.reply 404 (.obj [("cod", .str "404"),
          ("message", .str "city not found")])) .ok "manual" none none [] "t" =
        .ok (f, [] ++ [row]) ∧
      f.description = .str ("Gagal ambil data: " ++
        pyStr ((olookup [("cod", .str "404"), ("message", .str "city not found")]
          "message").getD (.str "Gagal ambil data dari API cuaca"))) ∧
      f.temp = .null ∧ f.feels_like = .null ∧ f.humidity = .null ∧
      f.city = (if truthy ((olookup [("cod", .str "404"),
                  ("message", .str "city not found")] "name").getD .null)
                then (olookup [("cod", .str "404"),
                  ("message", .str "city not found")] "name").getD .null
                else .str "Lokasi tidak diketahui")) :=
  ⟨by decide, c6_nonsuccess_description 404
    [("cod", .str "404"), ("message", .str "city not found")] "manual" "t"
    none none [] (by decide)⟩

/-- Claim C8 (counterexample):  With the environment credential absent,
`WEATHER_API_KEY` resolves to the hard-coded fallback key (which is sent
as `appid`), and fetches proceed normally: two different 200 replies
yield two different, data-dependent success snapshots — not any fixed
"not configured" snapshot.  No "not configured" degraded mode exists in
the code. -/
theorem c8_counterexample :
    WEATHER_API_KEY none = FALLBACK_API_KEY ∧
    FALLBACK_API_KEY ≠ "" ∧
    ("appid", Json.str FALLBACK_API_KEY) ∈
      final_params (WEATHER_API_KEY none) [("q", .str (CITY ++ "," ++ COUNTRY_CODE))] ∧
    ((call_openweather (.reply 200 (.obj [("name", .str "Pontianak"),
        ("main", .obj [("temp", .num 30), ("feels_like", .num 34), ("humidity", .num 70)]),
        ("weather", .arr [.obj [("description", .str "cloudy")]])])) .ok "otomatis"
        none none [] "t").toOption.map (fun p => p.1.description)) = some (.str "cloudy") ∧
    ((call_openweather (.reply 200 (.obj [("name", .str "Pontianak"),
        ("main", .obj [("temp", .num 30), ("feels_like", .num 34), ("humidity", .num 70)]),
        ("weather", .arr [.obj [("description", .str "sunny")]])])) .ok "otomatis"
        none none [] "t").toOption.map (fun p => p.1.description)) = some (.str "sunny") ∧
    Json.str "cloudy" ≠ Json.str "sunny" :=
  ⟨rfl, by decide, List.mem_cons_self _ _, rfl, rfl, by simp⟩

/-- Claim C8 (amended):  The credential is never absent at fetch time: the
resolution `os.getenv(...) or FALLBACK_API_KEY` yields a non-empty key
for every environment (the hard-coded fallback when the variable is
unset or empty), that key is placed as `appid` in the outbound request
parameters, and the fetch behaviour is a function of the provider's
reply alone — there is no "not configured" snapshot path. -/
theorem c8_fallback_key_used (env : Option String) (ps : List (String × Json)) :
    WEATHER_API_KEY env ≠ "" ∧
    WEATHER_API_KEY none = FALLBACK_API_KEY ∧
    final_params (WEATHER_API_KEY none) ps =
      ("appid", .str FALLBACK_API_KEY) :: ("units", .str "metric") ::
        ("lang", .str "id") :: ps := by
  refine ⟨?_, rfl, rfl⟩
  cases env with
  | none => exact (by decide : FALLBACK_API_KEY ≠ "")
  | some s =>
      show (if s = "" then FALLBACK_API_KEY else s) ≠ ""
      by_cases h : s = ""
      · rw [if_pos h]; decide
      · rw [if_neg h]; exact h

/-- Claim C10 (counterexample):  A 200 reply whose `main` object carries an
explicit JSON `null` for `temp` but numbers for `feels_like` and
`humidity` is copied through verbatim by `format_weather`: the resulting
snapshot has `temp` absent while `feels_like` and `humidity` are present
— the three numeric fields are not all-present-or-all-absent. -/
theorem c10_counterexample :
    ((call_openweather (.reply 200 (.obj [("name", .str "y"),
        ("main", .obj [("temp", .null), ("feels_like", .num 1), ("humidity", .num 2)]),
        ("weather", .arr [.obj [("description", .str "x")]])])) .ok "otomatis"
        none none [] "t").toOption.map
      (fun p => (p.1.temp, p.1.feels_like, p.1.humidity))) =
      some (.null, .num 1, .num 2) ∧
    Json.num 1 ≠ Json.null :=
  ⟨rfl, nofun⟩

/-- Claim C10 (amended):  In every snapshot a fetch path returns, either all
three numeric fields are absent (`None`), or the reply was a 200 whose
`main` object contained all three keys and each snapshot field is that
payload value copied verbatim — so a partially populated snapshot occurs
exactly when the payload itself carries `null` for a strict subset of
the three keys. -/
theorem c10_numerics_all_absent_or_copied (outcome : FetchOutcome) (mode now : String)
    (lat lon : Option ℚ) (db db2 : List LogRow) (f : Formatted)
    (h : call_openweather outcome .ok mode lat lon db now = .ok (f, db2)) :
    (f.temp = .null ∧ f.feels_like = .null ∧ f.humidity = .null) ∨
    (∃ data main, outcome = .reply 200 data ∧
      pyItem data "main" = .ok main ∧
      pyItem main "temp" = .ok f.temp ∧
      pyItem main "feels_like" = .ok f.feels_like ∧
      pyItem main "humidity" = .ok f.humidity) := by
  cases outcome with
  | transportError emsg =>
      left
      rw [show call_openweather (.transportError emsg) .ok mode lat lon db now =
          .ok (transportSnapshot now,
            db ++ [{ id := nextId db, api_called_at := now, mode := mode
                     city := .str "Lokasi tidak diketahui", lat := lat, lon := lon
                     temp := .null, feels_like := .null, humidity := .null
                     description := .str "Tidak bisa terhubung ke server cuaca"
                     raw_json := .obj [("error", .str emsg)] }]) from rfl] at h
      simp only [Except.ok.injEq, Prod.mk.injEq] at h
      obtain ⟨hf, -⟩ := h
      subst hf
      exact ⟨rfl, rfl, rfl⟩
  | reply status data =>
      by_cases hs : status = 200
      · subst hs
        rw [show call_openweather (.reply 200 data) .ok mode lat lon db now =
            (format_weather data now).bind (fun fw =>
              (save_log .ok db mode data fw lat lon now).bind
                (fun d => (.ok (fw, d) : Except PyErr _))) from rfl] at h
        obtain ⟨fw, hfw, h⟩ := except_bind_ok_ex h
        obtain ⟨db3, -, h⟩ := except_bind_ok_ex h
        simp only [Except.ok.injEq, Prod.mk.injEq] at h
        obtain ⟨hf, -⟩ := h
        subst hf
        unfold format_weather at hfw
        cases hb : fwBody data now with
        | error e =>
            left
            rw [hb] at hfw
            by_cases ht : truthy data
            · rw [if_pos ht] at hfw
              cases hg : pyGet data "name" with
              | ok nameOpt =>
                  rw [hg] at hfw
                  injection hfw with hfw2
                  subst hfw2
                  exact ⟨rfl, rfl, rfl⟩
              | error e2 =>
                  rw [hg] at hfw
                  exact absurd hfw (by simp)
            · rw [if_neg ht] at hfw
              injection hfw with hfw2
              subst hfw2
              exact ⟨rfl, rfl, rfl⟩
        | ok fw2 =>
            right
            rw [hb] at hfw
            injection hfw with hfw2
            subst hfw2
            unfold fwBody at hb
            obtain ⟨city, h1, hb⟩ := except_bind_ok_ex hb
            obtain ⟨main, h2, hb⟩ := except_bind_ok_ex hb
            obtain ⟨temp, h3, hb⟩ := except_bind_ok_ex hb
            obtain ⟨fl, h4, hb⟩ := except_bind_ok_ex hb
            obtain ⟨weather, h5, hb⟩ := except_bind_ok_ex hb
            obtain ⟨w0, h6, hb⟩ := except_bind_ok_ex hb
            obtain ⟨desc, h7, hb⟩ := except_bind_ok_ex hb
            obtain ⟨hum, h8, hb⟩ := except_bind_ok_ex hb
            simp only [pure, Except.pure, Except.ok.injEq] at hb
            subst hb
            exact ⟨data, main, rfl, h2, h3, h4, h8⟩
      · left
        rw [show call_openweather (.reply status data) .ok mode lat lon db now =
            (if status ≠ 200 then
              (pyGet data "message").bind (fun msgOpt =>
                (pyGet data "name").bind (fun nameOpt =>
                  (save_log .ok db mode data
                    { city := if truthy (nameOpt.getD .null) then nameOpt.getD .null
                              else .str "Lokasi tidak diketahui"
                      temp := .null
                      feels_like := .null
                      description := .str ("Gagal ambil data: " ++
                        pyStr (msgOpt.getD (.str "Gagal ambil data dari API cuaca")))
                      humidity := .null
                      updated_at := now }
                    lat lon now).bind (fun d =>
                      (.ok ({ city := if truthy (nameOpt.getD .null) then nameOpt.getD .null
                                      else .str "Lokasi tidak diketahui"
                              temp := .null
                              feels_like := .null
                              description := .str ("Gagal ambil data: " ++
                                pyStr (msgOpt.getD (.str "Gagal ambil data dari API cuaca")))
                              humidity := .null
                              updated_at := now }, d) : Except PyErr _))))
            else (format_weather data now).bind (fun fw =>
              (save_log .ok db mode data fw lat lon now).bind
                (fun d => (.ok (fw, d) : Except PyErr _)))) from rfl] at h
        rw [if_pos hs] at h
        obtain ⟨msgOpt, -, h⟩ := except_bind_ok_ex h
        obtain ⟨nameOpt, -, h⟩ := except_bind_ok_ex h
        obtain ⟨db3, -, h⟩ := except_bind_ok_ex h
        simp only [Except.ok.injEq, Prod.mk.injEq] at h
        obtain ⟨hf, -⟩ := h
        subst hf
        exact ⟨rfl, rfl, rfl⟩

/-- Claim C10 (witness):  The amended statement instantiated at a transport
failure, which lands in the all-absent disjunct. -/
theorem c10_numerics_all_absent_or_copied_witness :
    (call_openweather (.transportError "x") .ok "otomatis" none none [] "t" =
      .ok (transportSnapshot "t",
        [{ id := 1, api_called_at := "t", mode := "otomatis"
           city := .str "Lokasi tidak diketahui", lat := none, lon := none
           temp := .null, feels_like := .null, humidity := .null
           description := .str "Tidak bisa terhubung ke server cuaca"
           raw_json := .obj [("error", .str "x")] }])) ∧
    (((transportSnapshot "t").temp = .null ∧ (transportSnapshot "t").feels_like = .null ∧
        (transportSnapshot "t").humidity = .null) ∨
      (∃ data main, (FetchOutcome.transportError "x") = .reply 200 data ∧
        pyItem data "main" = .ok main ∧
        pyItem main "temp" = .ok (transportSnapshot "t").temp ∧
        pyItem main "feels_like" = .ok (transportSnapshot "t").feels_like ∧
        pyItem main "humidity" = .ok (transportSnapshot "t").humidity)) :=
  ⟨rfl, c10_numerics_all_absent_or_copied (.transportError "x") "otomatis" "t"
    none none [] _ (transportSnapshot "t") rfl⟩
